import Mathlib

/-!
Shallow embedding of `qcodes_contrib_drivers/drivers/Kiutra/Kiutra.py`.

The driver is a facade over an external SDK.  Python floats are modelled by
`ℚ` (every literal in the driver is an exact decimal), Python exceptions by
an explicit `Except PyErr` result, and the observable interaction with the
external controller handles (commands issued, stability polls, sleeps)
by an explicit trace of events.  Reads of the `sample_stage_temperature`
parameter are modelled by a stream `temps : Nat → ℚ` of successive read
results together with an explicit read index.

Python attribute resolution is modelled explicitly: `__init__` binds a
fixed list of instance attributes (`kiutraInit`), and every
`self.<attribute>` dereference in a method body goes through a lookup in
that list, raising `AttributeError` when the name was never bound.  This
matters because the method bodies dereference `self.TemperatureControl`
(lines 58, 140, 146, 158, 200), `self.MagnetControl` (lines 99, 128) and
`self.host_ip_address` (line 89), none of which `__init__` assigns — it
binds `temperature_control`, `magnet_control`, etc., and never stores the
host argument on the instance.
-/

namespace Kiutra

/-- Python exceptions raised by the driver: `ValueError`, `RuntimeError`,
and `AttributeError` (raised by Python attribute lookup on a missing
instance attribute). -/
inductive PyErr
  | valueError (msg : String)
  | runtimeError (msg : String)
  | attrError (missing : String)
deriving DecidableEq

/-- Observable events of an instrument method: a `start` command to the
magnet controller (line 99), a `start_proposed_mode` command to the
temperature controller (lines 140 and 158), a read of a stability flag
(lines 128 and 146), and a `sleep(1)` between polls (lines 129 and 147). -/
inductive Ev
  | magnetStart (setpoint ramp : ℚ)
  | tempMode (setpoint : ℚ) (ramp : Option ℚ) (mode : String) (startTemp : ℚ)
  | pollMagnet (b : Bool)
  | pollTemp (b : Bool)
  | sleepSec (n : Nat)
deriving DecidableEq

/-- Values an instance attribute of the facade can hold: a controller handle
bound to a device identifier and a host, a `Magnet` handle, a registered
parameter with its unit, or a plain string. -/
inductive AttrVal
  | controller (device host : String)
  | magnet (device host : String)
  | param (pname unit : String)
  | str (s : String)
deriving DecidableEq

/-- Embeds the attribute assignments performed by `Kiutra.__init__`
(lines 16-86), in source order: the fields set by the base
`Instrument.__init__(name, metadata, label)` call, the eight controller
handles, and the five parameters registered with `add_parameter`.  The
constructor argument `host_ip_address` is only ever passed to the handle
constructors; no statement of `__init__` (nor of the external
`Instrument.__init__`, which receives only `name`, `metadata` and `label`)
binds an attribute named `host_ip_address` on the instance.  Likewise no
statement binds `TemperatureControl` or `MagnetControl`: the handles are
bound under the snake-case names `temperature_control` and
`magnet_control`. -/
def kiutraInit (name host_ip_address : String) : List (String × AttrVal) :=
  [("name", .str name),
   ("label", .str "kiutra"),
   ("cryostat_control", .controller "cryostat" host_ip_address),
   ("sample_control", .controller "sample_loader" host_ip_address),
   ("temperature_control", .controller "temperature_control" host_ip_address),
   ("adr_control", .controller "adr_control" host_ip_address),
   ("heater_control", .controller "sample_heater" host_ip_address),
   ("magnet_control", .controller "sample_magnet" host_ip_address),
   ("magnet_power_supply_1", .magnet "mps_1" host_ip_address),
   ("magnet_power_supply_2", .magnet "mps_2" host_ip_address),
   ("sample_stage_temperature", .param "sample_stage_temperature" "K"),
   ("sample_magnetic_field", .param "sample_magnetic_field" "T"),
   ("magnet_power_supply_1_field", .param "magnet_power_supply_1_field" "T"),
   ("magnet_power_supply_2_field", .param "magnet_power_supply_2_field" "T"),
   ("sample_heater_power", .param "sample_heater_power" "W")]

/-- Embeds a Python attribute dereference `self.<name>`: the value when
`__init__` bound the name, `AttributeError` otherwise. -/
def getattr (attrs : List (String × AttrVal)) (name : String) :
    Except PyErr AttrVal :=
  match attrs.lookup name with
  | some v => .ok v
  | none => .error (.attrError name)

/-- Embeds `Kiutra.get_idn` (lines 88-89): evaluates the attribute reference
`self.host_ip_address` by lookup in the instance attribute list; Python
raises `AttributeError` when the lookup fails, otherwise the method returns
the dict with keys `"model"` and `"Host"`. -/
def get_idn (attrs : List (String × AttrVal)) :
    Except PyErr (List (String × AttrVal)) :=
  match attrs.lookup "host_ip_address" with
  | some v => .ok [("model", .str "Kiutra"), ("Host", v)]
  | none => .error (.attrError "host_ip_address")

/-- Embeds a call of the registered parameter `sample_stage_temperature`
(line 54): the parameter itself is bound, and its getter
`lambda: self.TemperatureControl.kelvin` (line 58) first dereferences
`self.TemperatureControl` — raising `AttributeError` when that attribute
is unbound — and only then reads the hardware value, modelled as the
`i`-th element of the read stream; the returned index is the next
unconsumed read. -/
def sample_stage_temperature_read (attrs : List (String × AttrVal))
    (temps : Nat → ℚ) (i : Nat) : Except PyErr (ℚ × Nat) :=
  match getattr attrs "TemperatureControl" with
  | .error e => .error e
  | .ok _ => .ok (temps i, i + 1)

/-- Embeds `Kiutra.get_temp_ramp_rate` (lines 178-196): a first-match table
on `min(temp_1, temp_2)`; raises `ValueError` above 20 K.  This method
touches no instance attribute besides its own arguments, so it is pure. -/
def get_temp_ramp_rate (temp_1 temp_2 : ℚ) : Except PyErr ℚ :=
  let min_temp := min temp_1 temp_2
  if min_temp ≤ 0.3 then .ok 0.05
  else if min_temp ≤ 0.5 then .ok 0.10
  else if min_temp ≤ 1.0 then .ok 0.15
  else if min_temp ≤ 4.0 then .ok 0.20
  else if min_temp ≤ 20.0 then .ok 0.25
  else .error (.valueError "Temperature ramp rate is not defined for temperatures above 20K.")

/-- Embeds `Kiutra.check_temp_ramp_rate` (lines 162-176).  Line 165 reads
the sample-stage temperature through the parameter getter (which
dereferences the unbound `self.TemperatureControl` first); only if that
read succeeds is the default rate computed and compared.  The result type
mirrors the declared Python return type `float | None` as `Option ℚ`; the
accept branch returns `user_set_rate` itself, exactly as
`return user_set_rate` does. -/
def check_temp_ramp_rate (attrs : List (String × AttrVal)) (temps : Nat → ℚ)
    (i : Nat) (user_set_rate : Option ℚ) (setpoint_temperature : ℚ) :
    Except PyErr (Option ℚ) :=
  match sample_stage_temperature_read attrs temps i with
  | .error e => .error e
  | .ok (temp_now, _) =>
    match get_temp_ramp_rate temp_now setpoint_temperature with
    | .error e => .error e
    | .ok default_ramp_rate =>
      match user_set_rate with
      | some r =>
        if default_ramp_rate ≤ r then
          .error (.valueError
            ("Set ramp rate exceeds reccommended value of "
              ++ toString default_ramp_rate ++ " K/min"))
        else .ok user_set_rate
      | none => .ok (some default_ramp_rate)

/-- Embeds `Kiutra.get_magnetic_field_ramp_rate` (lines 106-117).  The
Python body calls `self.sample_stage_temperature()` once in the `if`
condition (line 110) and, when that branch is not taken, a second time in
the `elif` condition (line 112); each call dereferences the unbound
`self.TemperatureControl` inside the getter before anything else. -/
def get_magnetic_field_ramp_rate (attrs : List (String × AttrVal))
    (temps : Nat → ℚ) (i : Nat) : Except PyErr (ℚ × Nat) :=
  match sample_stage_temperature_read attrs temps i with
  | .error e => .error e
  | .ok (t1, i1) =>
    if t1 < 1 then .ok (0.1, i1)
    else
      match sample_stage_temperature_read attrs temps i1 with
      | .error e => .error e
      | .ok (t2, i2) =>
        if t2 < 10 then .ok (0.5, i2)
        else .error (.valueError
          "Magnetic field ramp rate is not defined for temperatures above 10K.")

/-- Embeds `Kiutra.check_temp_control` (lines 198-203): line 200 first
dereferences `self.TemperatureControl` (unbound on every instance) and
only then would test the stable flag, modelled as the Bool the external
handle would report. -/
def check_temp_control (attrs : List (String × AttrVal)) (stable : Bool) :
    Except PyErr Unit :=
  match getattr attrs "TemperatureControl" with
  | .error e => .error e
  | .ok _ =>
    if stable then .ok ()
    else .error (.runtimeError
      "Temperature control is not stable. Either abort command or reset temp control from the GUI.")

/-- Embeds the poll loops `while not <handle>.stable: sleep(1)` (lines
128-129 and 146-147) once the handle attribute has resolved.  `st k` is the
result of the `k`-th read of the flag, `mk` builds the poll event for the
handle being polled, and `fuel` bounds the number of iterations modelled:
`none` means the loop has not terminated within `fuel` reads (the Python
loop has no other exit). -/
def waitStable (mk : Bool → Ev) (st : Nat → Bool) : Nat → Nat → Option (List Ev)
  | 0, _ => none
  | fuel + 1, k =>
    if st k then some [mk true]
    else (waitStable mk st fuel (k + 1)).map fun tr => mk false :: Ev.sleepSec 1 :: tr

/-- Embeds the poll loop of line 128: each iteration evaluates
`self.MagnetControl.stable`, whose attribute dereference raises
`AttributeError` when `MagnetControl` is unbound — before any flag value
is read. -/
def waitMagnetStable (attrs : List (String × AttrVal)) (mst : Nat → Bool)
    (fuel k : Nat) : Option (Except PyErr (List Ev)) :=
  match getattr attrs "MagnetControl" with
  | .error e => some (.error e)
  | .ok _ => (waitStable Ev.pollMagnet mst fuel k).map .ok

/-- Embeds the poll loop of line 146: each iteration evaluates
`self.TemperatureControl.stable`, whose attribute dereference raises
`AttributeError` when `TemperatureControl` is unbound. -/
def waitTempStable (attrs : List (String × AttrVal)) (tst : Nat → Bool)
    (fuel k : Nat) : Option (Except PyErr (List Ev)) :=
  match getattr attrs "TemperatureControl" with
  | .error e => some (.error e)
  | .ok _ => (waitStable Ev.pollTemp tst fuel k).map .ok

/-- Embeds `self.TemperatureControl.start_proposed_mode(...)` (lines 140
and 158): the attribute dereference happens first; when it resolves, the
command event is issued. -/
def temp_start_proposed_mode (attrs : List (String × AttrVal)) (setpoint : ℚ)
    (ramp : Option ℚ) (mode : String) (start_temperature : ℚ) :
    Except PyErr (List Ev) :=
  match getattr attrs "TemperatureControl" with
  | .error e => .error e
  | .ok _ => .ok [Ev.tempMode setpoint ramp mode start_temperature]

/-- Embeds `Kiutra.start_magnetic_field_sweep` (lines 91-104): when no rate
is given it is filled from `get_magnetic_field_ramp_rate` (consuming
temperature reads from index `i` on), then `self.MagnetControl.start`
(line 99) is dereferenced — `AttributeError` when unbound — and the start
command issued.  Returns the events issued and the next temperature read
index. -/
def start_magnetic_field_sweep (attrs : List (String × AttrVal))
    (temps : Nat → ℚ) (i : Nat) (setpoint_magnetic_field : ℚ)
    (magnetic_field_ramp_rate : Option ℚ) : Except PyErr (List Ev × Nat) :=
  match (match magnetic_field_ramp_rate with
         | none => get_magnetic_field_ramp_rate attrs temps i
         | some r => .ok (r, i)) with
  | .error e => .error e
  | .ok (r, i2) =>
    match getattr attrs "MagnetControl" with
    | .error e => .error e
    | .ok _ => .ok ([Ev.magnetStart setpoint_magnetic_field r], i2)

/-- Embeds `Kiutra.stabilize_at_magnetic_field` (lines 119-129): the sweep
is started, then `MagnetControl.stable` is polled (with `sleep(1)` between
polls) until it reads true.  `mst k` is the `k`-th read of the flag; `none`
means the call has not returned within `fuel` polls. -/
def stabilize_at_magnetic_field (attrs : List (String × AttrVal))
    (temps : Nat → ℚ) (mst : Nat → Bool) (fuel : Nat)
    (setpoint_magnetic_field : ℚ) (magnetic_field_ramp_rate : Option ℚ) :
    Option (Except PyErr (List Ev)) :=
  match start_magnetic_field_sweep attrs temps 0 setpoint_magnetic_field
      magnetic_field_ramp_rate with
  | .error e => some (.error e)
  | .ok (evs, _) =>
    match waitMagnetStable attrs mst fuel 0 with
    | none => none
    | some (.error e) => some (.error e)
    | some (.ok tr) => some (.ok (evs ++ tr))

/-- Embeds `Kiutra.stabilize_at_temperature` (lines 131-147): `temp_now` is
read (line 136, read index 0 — failing with `AttributeError` on instances
where the getter's `TemperatureControl` dereference fails), the rate is
resolved by `check_temp_ramp_rate` whose own temperature read is the next
index (line 165), the `"stabilize"` command is issued with
`start_temperature=temp_now`, then `TemperatureControl.stable` is polled
until true. -/
def stabilize_at_temperature (attrs : List (String × AttrVal))
    (temps : Nat → ℚ) (tst : Nat → Bool) (fuel : Nat)
    (setpoint_temperature : ℚ) (user_temp_ramp_rate : Option ℚ) :
    Option (Except PyErr (List Ev)) :=
  match sample_stage_temperature_read attrs temps 0 with
  | .error e => some (.error e)
  | .ok (temp_now, i1) =>
    match check_temp_ramp_rate attrs temps i1 user_temp_ramp_rate
        setpoint_temperature with
    | .error e => some (.error e)
    | .ok ramp_rate =>
      match temp_start_proposed_mode attrs setpoint_temperature ramp_rate
          "stabilize" temp_now with
      | .error e => some (.error e)
      | .ok evs =>
        match waitTempStable attrs tst fuel 0 with
        | none => none
        | some (.error e) => some (.error e)
        | some (.ok tr) => some (.ok (evs ++ tr))

/-- Embeds `Kiutra.ramp_temperature` (lines 149-160): first
`stabilize_at_temperature(start)` (blocking), then the rate is computed by
`get_temp_ramp_rate(start, stop)` and a single `"ramp"` command is issued
with `start_temperature=start`; the method returns with no further
polling. -/
def ramp_temperature (attrs : List (String × AttrVal)) (temps : Nat → ℚ)
    (tst : Nat → Bool) (fuel : Nat) (start stop : ℚ) :
    Option (Except PyErr (List Ev)) :=
  match stabilize_at_temperature attrs temps tst fuel start none with
  | none => none
  | some (.error e) => some (.error e)
  | some (.ok tr) =>
    match get_temp_ramp_rate start stop with
    | .error e => some (.error e)
    | .ok rate =>
      match temp_start_proposed_mode attrs stop (some rate) "ramp" start with
      | .error e => some (.error e)
      | .ok evs => some (.ok (tr ++ evs))

/-- On every instance built by `__init__`, `check_temp_ramp_rate` fails at
its very first step: the line-165 temperature read dereferences the
unbound `TemperatureControl` attribute.  Shared by the theorems about the
method's error behaviour and its never-returning-`None` consequence. -/
lemma check_temp_ramp_rate_kiutra (name host : String) (temps : Nat → ℚ)
    (i : Nat) (u : Option ℚ) (s : ℚ) :
    check_temp_ramp_rate (kiutraInit name host) temps i u s =
      .error (.attrError "TemperatureControl") := rfl

/-- C1: for every pair `(a, b)` with `m = min a b`, `get_temp_ramp_rate a b`
returns 0.05 when `m ≤ 0.3`, 0.10 when `0.3 < m ≤ 0.5`, 0.15 when
`0.5 < m ≤ 1.0`, 0.20 when `1.0 < m ≤ 4.0`, 0.25 when `4.0 < m ≤ 20.0`, and
a `ValueError` when `m > 20`, the bounds being tested in first-matching
order; in particular `get_temp_ramp_rate 0.5 2 = ok 0.10`. -/
theorem temp_ramp_rate_table :
    (∀ a b : ℚ,
      (min a b ≤ 0.3 → get_temp_ramp_rate a b = .ok 0.05) ∧
      (0.3 < min a b → min a b ≤ 0.5 → get_temp_ramp_rate a b = .ok 0.10) ∧
      (0.5 < min a b → min a b ≤ 1.0 → get_temp_ramp_rate a b = .ok 0.15) ∧
      (1.0 < min a b → min a b ≤ 4.0 → get_temp_ramp_rate a b = .ok 0.20) ∧
      (4.0 < min a b → min a b ≤ 20.0 → get_temp_ramp_rate a b = .ok 0.25) ∧
      (20.0 < min a b → get_temp_ramp_rate a b = .error (.valueError
        "Temperature ramp rate is not defined for temperatures above 20K."))) ∧
    get_temp_ramp_rate 0.5 2 = .ok 0.10 := by
  constructor
  · intro a b
    refine ⟨fun h => ?_, fun h1 h2 => ?_, fun h1 h2 => ?_, fun h1 h2 => ?_,
      fun h1 h2 => ?_, fun h1 => ?_⟩
    · simp [get_temp_ramp_rate, h]
    · simp [get_temp_ramp_rate, h2, not_le.mpr h1]
    · have n3 : ¬ min a b ≤ 0.3 := not_le.mpr (lt_trans (by norm_num) h1)
      simp [get_temp_ramp_rate, h2, n3, not_le.mpr h1]
    · have n3 : ¬ min a b ≤ 0.3 := not_le.mpr (lt_trans (by norm_num) h1)
      have n5 : ¬ min a b ≤ 0.5 := not_le.mpr (lt_trans (by norm_num) h1)
      simp [get_temp_ramp_rate, h2, n3, n5, not_le.mpr h1]
    · have n3 : ¬ min a b ≤ 0.3 := not_le.mpr (lt_trans (by norm_num) h1)
      have n5 : ¬ min a b ≤ 0.5 := not_le.mpr (lt_trans (by norm_num) h1)
      have n1 : ¬ min a b ≤ 1.0 := not_le.mpr (lt_trans (by norm_num) h1)
      simp [get_temp_ramp_rate, h2, n3, n5, n1, not_le.mpr h1]
    · have n3 : ¬ min a b ≤ 0.3 := not_le.mpr (lt_trans (by norm_num) h1)
      have n5 : ¬ min a b ≤ 0.5 := not_le.mpr (lt_trans (by norm_num) h1)
      have n1 : ¬ min a b ≤ 1.0 := not_le.mpr (lt_trans (by norm_num) h1)
      have n4 : ¬ min a b ≤ 4.0 := not_le.mpr (lt_trans (by norm_num) h1)
      simp [get_temp_ramp_rate, n3, n5, n1, n4, not_le.mpr h1]
  · norm_num [get_temp_ramp_rate, min_def]

/-- Witness for C1: the table applied at `(5, 7)` (so `m = 5`, the fifth
branch) yields 0.25. -/
theorem temp_ramp_rate_table_witness : get_temp_ramp_rate 5 7 = .ok 0.25 :=
  (temp_ramp_rate_table.1 5 7).2.2.2.2.1
    (by rw [min_eq_left (by norm_num : (5:ℚ) ≤ 7)]; norm_num)
    (by rw [min_eq_left (by norm_num : (5:ℚ) ≤ 7)]; norm_num)

/-- C9: `get_temp_ramp_rate` is commutative in its two arguments — the two
orders give the same result, value or error. -/
theorem temp_ramp_rate_comm :
    ∀ a b : ℚ, get_temp_ramp_rate a b = get_temp_ramp_rate b a := by
  intro a b
  simp only [get_temp_ramp_rate, min_comm a b]

/-- C4: on every instance produced by `__init__`, `get_idn` raises
`AttributeError`: the attribute `host_ip_address` that line 89 reads is
never assigned by the constructor, so the documented identity dict is
never returned. -/
theorem get_idn_attr_missing :
    ∀ (name host_ip_address : String),
      get_idn (kiutraInit name host_ip_address) =
        .error (.attrError "host_ip_address") := by
  intro n h
  rfl

/-- C2: on every instance produced by `__init__`, at every temperature,
`get_magnetic_field_ramp_rate` raises `AttributeError` at its first
temperature read: the `sample_stage_temperature` getter (line 58)
dereferences `self.TemperatureControl`, which the constructor never binds
(it binds `temperature_control`), so the documented 0.1 / 0.5 / `ValueError`
policy is never reached. -/
theorem magnetic_field_ramp_rate_attr_missing :
    ∀ (name host : String) (temps : Nat → ℚ) (i : Nat),
      get_magnetic_field_ramp_rate (kiutraInit name host) temps i =
        .error (.attrError "TemperatureControl") := by
  intro n h temps i
  rfl

/-- C3: on every instance produced by `__init__`, `check_temp_ramp_rate`
raises `AttributeError` at the line-165 temperature read (via the broken
`sample_stage_temperature` getter), so it never returns the user rate,
never raises the documented `ValueError`, and never returns the default. -/
theorem check_temp_ramp_rate_attr_missing :
    ∀ (name host : String) (temps : Nat → ℚ) (i : Nat) (u : Option ℚ) (s : ℚ),
      check_temp_ramp_rate (kiutraInit name host) temps i u s =
        .error (.attrError "TemperatureControl") :=
  fun name host temps i u s => check_temp_ramp_rate_kiutra name host temps i u s

/-- C5: on every instance produced by `__init__`,
`stabilize_at_magnetic_field` raises `AttributeError` before any start
command is issued or any poll occurs: with no rate the rate-fill read
dereferences the unbound `TemperatureControl`; with a user rate the
`self.MagnetControl.start` dereference (line 99) fails, `MagnetControl`
never having been bound (the handle is `magnet_control`). -/
theorem stabilize_at_magnetic_field_attr_missing :
    ∀ (name host : String) (temps : Nat → ℚ) (mst : Nat → Bool) (fuel : Nat)
      (sp : ℚ),
      stabilize_at_magnetic_field (kiutraInit name host) temps mst fuel sp
          none = some (.error (.attrError "TemperatureControl")) ∧
      ∀ r : ℚ,
        stabilize_at_magnetic_field (kiutraInit name host) temps mst fuel sp
          (some r) = some (.error (.attrError "MagnetControl")) := by
  intro n h temps mst fuel sp
  exact ⟨rfl, fun r => rfl⟩

/-- C6: on every instance produced by `__init__`, `stabilize_at_temperature`
raises `AttributeError` at the line-136 temperature read (unbound
`TemperatureControl` in the getter), so the claimed single `"stabilize"`
command and the poll loop never happen. -/
theorem stabilize_at_temperature_attr_missing :
    ∀ (name host : String) (temps : Nat → ℚ) (tst : Nat → Bool) (fuel : Nat)
      (sp : ℚ) (user : Option ℚ),
      stabilize_at_temperature (kiutraInit name host) temps tst fuel sp user =
        some (.error (.attrError "TemperatureControl")) := by
  intro n h temps tst fuel sp user
  rfl

/-- C7: on every instance produced by `__init__`, `ramp_temperature` raises
`AttributeError` inside its very first step, the
`stabilize_at_temperature(start)` call (line 154), so neither the
stabilize command, nor the polls, nor the line-158 `"ramp"` command are
ever issued. -/
theorem ramp_temperature_attr_missing :
    ∀ (name host : String) (temps : Nat → ℚ) (tst : Nat → Bool) (fuel : Nat)
      (start stop : ℚ),
      ramp_temperature (kiutraInit name host) temps tst fuel start stop =
        some (.error (.attrError "TemperatureControl")) := by
  intro n h temps tst fuel start stop
  rfl

/-- C8: on every instance produced by `__init__` and whatever the
controller's stable flag would report, `check_temp_control` raises
`AttributeError` at the line-200 dereference of the unbound
`TemperatureControl` — never the documented `RuntimeError`, and never an
error-free return. -/
theorem check_temp_control_attr_missing :
    ∀ (name host : String) (b : Bool),
      check_temp_control (kiutraInit name host) b =
        .error (.attrError "TemperatureControl") := by
  intro n h b
  rfl

/-- C10: on every instance produced by `__init__` and on every input,
`check_temp_ramp_rate` raises some exception — it has no normal return at
all (the line-165 read always raises `AttributeError`), so in particular
no execution ever returns `None` despite the declared `float | None`
return type. -/
theorem check_temp_ramp_rate_no_normal_return :
    ∀ (name host : String) (temps : Nat → ℚ) (i : Nat) (u : Option ℚ) (s : ℚ),
      ∃ e : PyErr,
        check_temp_ramp_rate (kiutraInit name host) temps i u s = .error e :=
  fun name host temps i u s =>
    ⟨.attrError "TemperatureControl",
      check_temp_ramp_rate_kiutra name host temps i u s⟩

end Kiutra
